import Mathlib

/-!
Verification of the privileged kernel core of the `rust-raspberrypi-OS-tutorials`
repository: the device-driver registration/initialization framework
(`05_drivers_gpio_uart/src/driver.rs`), the pseudo-lock
(`04_safe_globals/src/synchronization.rs`), the GICv2 interrupt-controller driver
(`13_exceptions_part2_peripheral_IRQs/kernel/src/bsp/device_driver/arm/gicv2.rs`)
and the EL2-to-EL1 privilege-descent preparation
(`09_privilege_level/src/_arch/aarch64/cpu/boot.rs`).

The Rust code is shallowly embedded: the interior-mutability cells
(`NullLock`, `InitStateLock`) hand their closure a mutable reference to the
wrapped value, which we model as explicit state passing (a function
`State -> State × Result`); a Rust panic, which aborts this kernel, is modelled
as an explicit terminal outcome (`Option`/a `panicMsg` field); calls into the
opaque MMIO sub-components (`gicd`, `gicc`) are modelled as trace events.
-/

namespace KernelCore

/-! ## Device-driver framework (`05_drivers_gpio_uart/src/driver.rs`)

A driver is used by the manager only through `compatible()` and the outcome of
its `unsafe fn init()`, and a post-init callback only through its outcome, so a
`DeviceDriver` is embedded as its compatible string together with the result
its `init` returns, and a callback as the result it returns. -/

/-- Embedding of the `interface::DeviceDriver` trait object: `compatible()` and
the outcome of `init()` (`Result<(), &'static str>`). -/
structure DeviceDriver where
  compatible : String
  initResult : Except String Unit

/-- Embedding of `DeviceDriverDescriptor`: a driver plus an optional post-init
callback (`Option<unsafe fn() -> Result<(), &'static str>>`), the callback
represented by the outcome it returns. -/
structure DeviceDriverDescriptor where
  device_driver : DeviceDriver
  post_init_callback : Option (Except String Unit)

/-- `const NUM_DRIVERS: usize = 5;` — the build-time registry capacity. -/
def NUM_DRIVERS : Nat := 5

/-- Embedding of `DriverManagerInner`: the `next_index` counter and the
`[Option<DeviceDriverDescriptor>; NUM_DRIVERS]` array (a list whose length is
`NUM_DRIVERS` for every state the program constructs). -/
structure DriverManagerInner where
  next_index : Nat
  descriptors : List (Option DeviceDriverDescriptor)

/-- `DriverManagerInner::new()`. -/
def DriverManagerInner.new : DriverManagerInner :=
  { next_index := 0, descriptors := List.replicate NUM_DRIVERS none }

/-- Embedding of `DriverManager::register_driver`:
`inner.descriptors[inner.next_index] = Some(descriptor); inner.next_index += 1;`.
The Rust indexing `inner.descriptors[inner.next_index]` bounds-checks against
the array length and panics when `next_index` is out of bounds; the panic
(which aborts the kernel before anything is written) is modelled as `none`. -/
def register_driver (inner : DriverManagerInner) (d : DeviceDriverDescriptor) :
    Option DriverManagerInner :=
  if inner.next_index < inner.descriptors.length then
    some { next_index := inner.next_index + 1,
           descriptors := inner.descriptors.set inner.next_index (some d) }
  else
    none

/-- Observable steps of `DriverManager::init_drivers`, named by the driver's
compatible string: the call of `device_driver.init()` and the call of the
post-init callback. -/
inductive DriverEvent where
  | initCall (compatible : String)
  | postInitCall (compatible : String)
deriving DecidableEq

/-- The diagnostic of `panic!("Error initializing driver: {}: {}", compatible, x)`. -/
def initErrorMsg (compatible x : String) : String :=
  "Error initializing driver: " ++ compatible ++ ": " ++ x

/-- The diagnostic of
`panic!("Error during driver post-init callback: {}: {}", compatible, x)`. -/
def postInitErrorMsg (compatible x : String) : String :=
  "Error during driver post-init callback: " ++ compatible ++ ": " ++ x

/-- Embedding of the loop body of `DriverManager::init_drivers` over the
registered descriptors in order (`for_each_descriptor` yields the `Some`
entries of the array in array order). For each descriptor: call `init`, and on
`Err` panic with `initErrorMsg`; then, when a post-init callback is present,
call it, and on `Err` panic with `postInitErrorMsg`. A panic aborts, so
nothing after it runs. Returns the trace of calls made and the panic
diagnostic, if any. -/
def init_drivers_from : List DeviceDriverDescriptor → List DriverEvent × Option String
  | [] => ([], none)
  | d :: rest =>
    match d.device_driver.initResult with
    | Except.error x =>
        ([DriverEvent.initCall d.device_driver.compatible],
         some (initErrorMsg d.device_driver.compatible x))
    | Except.ok _ =>
        match d.post_init_callback with
        | none =>
            let r := init_drivers_from rest
            (DriverEvent.initCall d.device_driver.compatible :: r.1, r.2)
        | some (Except.error x) =>
            ([DriverEvent.initCall d.device_driver.compatible,
              DriverEvent.postInitCall d.device_driver.compatible],
             some (postInitErrorMsg d.device_driver.compatible x))
        | some (Except.ok _) =>
            let r := init_drivers_from rest
            (DriverEvent.initCall d.device_driver.compatible ::
               DriverEvent.postInitCall d.device_driver.compatible :: r.1, r.2)

/-- The registered descriptors of a manager state, in registration order:
`descriptors.iter().filter_map(|x| x.as_ref())`. -/
def registered (inner : DriverManagerInner) : List DeviceDriverDescriptor :=
  inner.descriptors.filterMap id

/-- `DriverManager::init_drivers` on a manager state. -/
def init_drivers (inner : DriverManagerInner) : List DriverEvent × Option String :=
  init_drivers_from (registered inner)

/-- A descriptor none of whose steps fails: `init` returns `Ok` and the
post-init callback, when present, returns `Ok`. -/
def descriptorOk (d : DeviceDriverDescriptor) : Bool :=
  (match d.device_driver.initResult with
   | Except.ok _ => true
   | Except.error _ => false) &&
  (match d.post_init_callback with
   | some (Except.error _) => false
   | _ => true)

/-- The trace `init_drivers` produces for one descriptor whose steps all
succeed: its `init` call followed by its post-init call when a callback is
present. -/
def okTrace (d : DeviceDriverDescriptor) : List DriverEvent :=
  DriverEvent.initCall d.device_driver.compatible ::
    (match d.post_init_callback with
     | none => []
     | some _ => [DriverEvent.postInitCall d.device_driver.compatible])

lemma init_drivers_from_ok_cons (d : DeviceDriverDescriptor)
    (rest : List DeviceDriverDescriptor) (hd : descriptorOk d = true) :
    init_drivers_from (d :: rest)
      = (okTrace d ++ (init_drivers_from rest).1, (init_drivers_from rest).2) := by
  unfold descriptorOk at hd
  cases hinit : d.device_driver.initResult with
  | error x => simp [hinit] at hd
  | ok u =>
    cases hcb : d.post_init_callback with
    | none => simp [init_drivers_from, hinit, hcb, okTrace]
    | some cb =>
      cases cb with
      | error x => simp [hinit, hcb] at hd
      | ok v => simp [init_drivers_from, hinit, hcb, okTrace]

lemma init_drivers_from_append_ok (pre tail : List DeviceDriverDescriptor)
    (h : ∀ d ∈ pre, descriptorOk d = true) :
    init_drivers_from (pre ++ tail)
      = (pre.flatMap okTrace ++ (init_drivers_from tail).1,
         (init_drivers_from tail).2) := by
  induction pre with
  | nil => simp
  | cons d pre ih =>
    have hd : descriptorOk d = true := h d (List.mem_cons_self d pre)
    have hrest : ∀ x ∈ pre, descriptorOk x = true := fun x hx => h x (List.mem_cons_of_mem d hx)
    rw [List.cons_append, init_drivers_from_ok_cons d (pre ++ tail) hd, ih hrest]
    simp [List.append_assoc]

/-! ## Pseudo-lock (`04_safe_globals/src/synchronization.rs`) -/

/-- Embedding of `NullLock<T>`: it wraps exactly one value
(`data: UnsafeCell<T>`). -/
structure NullLock (T : Type) where
  data : T

/-- Embedding of `NullLock::lock`: the closure `f` receives a mutable
reference to the wrapped data and returns an `R`; mutation through the
reference is modelled by `f` returning the updated value next to its result.
The source hands the closure the cell content and returns `f data`. -/
def NullLock.lock {T R : Type} (l : NullLock T) (f : T → T × R) : NullLock T × R :=
  let p := f l.data
  ({ data := p.1 }, p.2)

/-! ## GICv2 interrupt-controller driver
(`13_exceptions_part2_peripheral_IRQs/kernel/src/bsp/device_driver/arm/gicv2.rs`)

The handler table lives in an `InitStateLock`; per the synchronization module
of that chapter (spec §4.2), `write(f)` runs `f` with mutable access and
`read(f)` with read-only access, with no further behaviour, so both are
embedded as plain state passing. The `gicd`/`gicc` sub-components are MMIO
black boxes; the calls `gicv2_init` makes into them are recorded as trace
events, and the acknowledge-register read of `handle_pending_irqs` is an
input (`pending`). -/

/-- `const MAX_IRQ_NUMBER: usize = 300;`. -/
def MAX_IRQ_NUMBER : Nat := 300

/-- Embedding of `IRQNumber = BoundedUsize<{ GICv2::MAX_IRQ_NUMBER }>`.
Modelled from the spec for the chapter's `common.rs` (not under `src/`):
an integer bounded to `[0, MAX_IRQ]`, rejected outside range; `get` returns
the raw value. -/
abbrev IRQNumber := { n : Nat // n ≤ MAX_IRQ_NUMBER }

/-- `BoundedUsize::get`. -/
def IRQNumber.get (n : IRQNumber) : Nat := n.val

deriving instance DecidableEq for Except

/-- Embedding of the IRQ-handler capability: the only thing the dispatch path
uses is the outcome of `handle()` (`Result<(), &'static str>`). -/
structure IRQHandler where
  handleResult : Except String Unit
deriving DecidableEq

/-- Embedding of `exception::asynchronous::IRQHandlerDescriptor<IRQNumber>`:
number, static name, handler reference. -/
structure IRQHandlerDescriptor where
  number : IRQNumber
  name : String
  handler : IRQHandler
deriving DecidableEq

/-- `type HandlerTable = [Option<IRQHandlerDescriptor<IRQNumber>>; MAX_INCLUSIVE + 1]`,
as a list whose length is `MAX_IRQ_NUMBER + 1` in every state the program
constructs (`[None; IRQNumber::MAX_INCLUSIVE + 1]` at creation, mutated only
by `List.set`). -/
abbrev HandlerTable := List (Option IRQHandlerDescriptor)

/-- `GICv2::new`'s handler table: `[None; IRQNumber::MAX_INCLUSIVE + 1]`. -/
def HandlerTable.new : HandlerTable :=
  List.replicate (MAX_IRQ_NUMBER + 1) none

/-- Slot lookup `table[n]`. The table always has length `MAX_IRQ_NUMBER + 1`
and every index the source uses is `≤ MAX_IRQ_NUMBER`, so the Rust bounds
check never fires; out-of-range defaults to `none`. -/
def HandlerTable.slot (t : HandlerTable) (n : Nat) : Option IRQHandlerDescriptor :=
  List.getD t n none

/-- Embedding of `GICv2::register_handler`: inside `handler_table.write`,
read the descriptor's number, fail with `"IRQ handler already registered"`
when `table[irq_number].is_some()`, otherwise store the descriptor there. -/
def register_handler (t : HandlerTable) (d : IRQHandlerDescriptor) :
    HandlerTable × Except String Unit :=
  let irq_number := d.number.get
  match t.slot irq_number with
  | some _ => (t, Except.error "IRQ handler already registered")
  | none => (List.set t irq_number (some d), Except.ok ())

/-- Observable outcome of one `GICv2::handle_pending_irqs` call: the handlers
whose `handle()` ran, the IRQ numbers passed to `gicc.mark_comleted`, the
panic diagnostic if the call aborted, and the handler table afterwards (the
dispatch path only ever holds a read lock on it). -/
structure DispatchResult where
  invoked : List IRQHandlerDescriptor
  completed : List Nat
  panicMsg : Option String
  tableAfter : HandlerTable

/-- Embedding of `GICv2::handle_pending_irqs`. `pending` is the value the
CPU-Interface acknowledge register returned (`gicc.pending_irq_number`).
If it exceeds `MAX_IRQ_NUMBER`, return (spurious). Otherwise look up the
table under a read lock: no handler means
`panic!("No handler registered for IRQ {}", irq_number)`; a handler error
means `.expect("Error handling IRQ")` panics. Only when the handler
succeeds does control reach `gicc.mark_comleted(irq_number, ic)`. -/
def handle_pending_irqs (pending : Nat) (t : HandlerTable) : DispatchResult :=
  if pending > MAX_IRQ_NUMBER then
    { invoked := [], completed := [], panicMsg := none, tableAfter := t }
  else
    match t.slot pending with
    | none =>
        { invoked := [], completed := [],
          panicMsg := some ("No handler registered for IRQ " ++ toString pending),
          tableAfter := t }
    | some d =>
        match d.handler.handleResult with
        | Except.error x =>
            { invoked := [d], completed := [],
              panicMsg := some ("Error handling IRQ: " ++ x), tableAfter := t }
        | Except.ok _ =>
            { invoked := [d], completed := [pending], panicMsg := none,
              tableAfter := t }

/-- Helper of `print_handler`: the loop
`for (i, opt) in table.iter().skip(32).enumerate()` prints
`(i + 32, handler.name())` for each occupied slot, i.e. walk the remaining
slots keeping the absolute index (started at 32), emitting a line per `Some`
entry. -/
def printFrom : Nat → List (Option IRQHandlerDescriptor) → List (Nat × String)
  | _, [] => []
  | i, none :: rest => printFrom (i + 1) rest
  | i, some h :: rest => (i, h.name) :: printFrom (i + 1) rest

/-- Embedding of `GICv2::print_handler`: under a read lock, list the occupied
slots from index 32 on, as `(index, name)` lines. The closure only reads the
table, so the embedding returns the lines alone. -/
def print_handler (t : HandlerTable) : List (Nat × String) :=
  printFrom 32 (List.drop 32 t)

/-- Calls `GICv2::init` makes into the `gicd`/`gicc` sub-components. -/
inductive GicAction where
  | gicdBootCoreInit
  | giccPriorityAcceptAll
  | giccEnable
deriving DecidableEq

/-- Embedding of `GICv2::init`: `gicd.boot_core_init()` only when
`bsp::cpu::BOOT_CORE_ID == cpu::smp::core_id()` (both board constants outside
`src/`, kept as parameters), then unconditionally `gicc.priority_accept_all()`
and `gicc.enable()`; returns `Ok(())`. -/
def gicv2_init (bootCoreId coreId : Nat) : List GicAction × Except String Unit :=
  ((if bootCoreId = coreId then [GicAction.gicdBootCoreInit] else []) ++
     [GicAction.giccPriorityAcceptAll, GicAction.giccEnable],
   Except.ok ())

/-! ## Privilege descent (`09_privilege_level/src/_arch/aarch64/cpu/boot.rs`)

The function writes five system registers through the `aarch64-cpu` crate's
typed fields; a `write` sets the register to exactly the or-combination of the
named field values (all other bits zero). Field encodings per the crate and
the ARMv8-A architecture: `SPSR_EL2.D/A/I/F` are bits 9/8/7/6, `SPSR_EL2.M`
is bits 3:0 with `EL1h = 0b0101`; `HCR_EL2.RW` is bit 31 with
`EL1IsAarch64 = 1`; `CNTHCTL_EL2.EL1PCEN/EL1PCTEN` are bits 1/0. -/

/-- `SPSR_EL2::D::Masked` (bit 9). -/
def SPSR_EL2_D : Nat := 2 ^ 9

/-- `SPSR_EL2::A::Masked` (bit 8). -/
def SPSR_EL2_A : Nat := 2 ^ 8

/-- `SPSR_EL2::I::Masked` (bit 7). -/
def SPSR_EL2_I : Nat := 2 ^ 7

/-- `SPSR_EL2::F::Masked` (bit 6). -/
def SPSR_EL2_F : Nat := 2 ^ 6

/-- `SPSR_EL2::M::EL1h` (mode field, bits 3:0, value 0b0101). -/
def SPSR_EL2_M_EL1h : Nat := 5

/-- `HCR_EL2::RW::EL1IsAarch64` (bit 31 set). -/
def HCR_EL2_RW_EL1IsAarch64 : Nat := 2 ^ 31

/-- `CNTHCTL_EL2::EL1PCEN::SET` (bit 1). -/
def CNTHCTL_EL2_EL1PCEN : Nat := 2 ^ 1

/-- `CNTHCTL_EL2::EL1PCTEN::SET` (bit 0). -/
def CNTHCTL_EL2_EL1PCTEN : Nat := 2 ^ 0

/-- The system registers `prepare_el2_to_el1_transition` writes, as 64-bit
values carried in `Nat`. -/
structure AArch64Regs where
  cnthctl_el2 : Nat
  cntvoff_el2 : Nat
  hcr_el2 : Nat
  spsr_el2 : Nat
  elr_el2 : Nat
  sp_el1 : Nat

/-- Embedding of `prepare_el2_to_el1_transition`. `kernel_init_addr` is the
link-time address of `crate::kernel_init` (the value of
`crate::kernel_init as *const () as u64`) and `stack_addr` the
`phys_boot_core_stack_end_exclusive_addr` argument. The five writes happen in
source order. -/
def prepare_el2_to_el1_transition (kernel_init_addr stack_addr : Nat)
    (r : AArch64Regs) : AArch64Regs :=
  let r1 := { r with cnthctl_el2 := CNTHCTL_EL2_EL1PCEN + CNTHCTL_EL2_EL1PCTEN }
  let r2 := { r1 with cntvoff_el2 := 0 }
  let r3 := { r2 with hcr_el2 := HCR_EL2_RW_EL1IsAarch64 }
  let r4 := { r3 with
              spsr_el2 := SPSR_EL2_D + SPSR_EL2_A + SPSR_EL2_I + SPSR_EL2_F +
                SPSR_EL2_M_EL1h }
  let r5 := { r4 with elr_el2 := kernel_init_addr }
  { r5 with sp_el1 := stack_addr }

/-! ## Concrete fixtures used by witnesses and counterexamples -/

/-- A driver whose `init` succeeds, under a given compatible string. -/
def sampleDriver (s : String) : DeviceDriver :=
  { compatible := s, initResult := Except.ok () }

/-- A descriptor for `sampleDriver` with no post-init callback. -/
def sampleDescriptor (s : String) : DeviceDriverDescriptor :=
  { device_driver := sampleDriver s, post_init_callback := none }

/-- A manager state whose registry already holds `NUM_DRIVERS` descriptors. -/
def fullInner : DriverManagerInner :=
  { next_index := NUM_DRIVERS,
    descriptors := List.replicate NUM_DRIVERS (some (sampleDescriptor "d")) }

/-- Fixture driver A: `init` succeeds and the post-init callback succeeds. -/
def descA : DeviceDriverDescriptor :=
  { device_driver := { compatible := "GPIO", initResult := Except.ok () },
    post_init_callback := some (Except.ok ()) }

/-- Fixture driver B: `init` fails. -/
def descB : DeviceDriverDescriptor :=
  { device_driver := { compatible := "PL011", initResult := Except.error "uart timeout" },
    post_init_callback := none }

/-- Fixture IRQ handler descriptor at IRQ 153 (the spec scenario's uart). -/
def uartDescriptor : IRQHandlerDescriptor :=
  { number := ⟨153, by decide⟩, name := "pl011_uart",
    handler := { handleResult := Except.ok () } }

/-- Fixture IRQ handler descriptor at IRQ 33 (the spec scenario's timer). -/
def timerDescriptor : IRQHandlerDescriptor :=
  { number := ⟨33, by decide⟩, name := "timer",
    handler := { handleResult := Except.ok () } }

/-- Table of the spec scenario: timer registered at 33, uart at 153. -/
def scenarioTable : HandlerTable :=
  List.set (List.set HandlerTable.new 33 (some timerDescriptor)) 153 (some uartDescriptor)

/-- Fixture descriptor at IRQ 0, i.e. in the SGI/PPI range `print_handler` skips. -/
def sgiDescriptor : IRQHandlerDescriptor :=
  { number := ⟨0, by decide⟩, name := "sgi0",
    handler := { handleResult := Except.ok () } }

/-- A table whose only occupied slot is 0. -/
def lowSlotTable : HandlerTable :=
  List.set HandlerTable.new 0 (some sgiDescriptor)

/-! ## Bridging lemmas -/

lemma slot_eq_some_iff (t : HandlerTable) (i : Nat) (d : IRQHandlerDescriptor) :
    HandlerTable.slot t i = some d ↔ t[i]? = some (some d) := by
  unfold HandlerTable.slot
  have hgd : List.getD t i none = (t[i]?).getD none := by simp [List.getD]
  rw [hgd]
  cases h : t[i]? with
  | none => simp
  | some o => simp

lemma mem_printFrom (l : List (Option IRQHandlerDescriptor)) (i0 i : Nat) (s : String) :
    (i, s) ∈ printFrom i0 l ↔
      ∃ j d, l[j]? = some (some d) ∧ i = i0 + j ∧ d.name = s := by
  induction l generalizing i0 with
  | nil => simp [printFrom]
  | cons o rest ih =>
    cases o with
    | none =>
      rw [show printFrom i0 (none :: rest) = printFrom (i0 + 1) rest from rfl, ih (i0 + 1)]
      constructor
      · rintro ⟨j, d, hj, hi, hs⟩
        exact ⟨j + 1, d, by simpa using hj, by omega, hs⟩
      · rintro ⟨j, d, hj, hi, hs⟩
        cases j with
        | zero => simp at hj
        | succ k => exact ⟨k, d, by simpa using hj, by omega, hs⟩
    | some h =>
      rw [show printFrom i0 (some h :: rest) = (i0, h.name) :: printFrom (i0 + 1) rest from rfl]
      rw [List.mem_cons, ih (i0 + 1)]
      constructor
      · rintro (heq | ⟨j, d, hj, hi, hs⟩)
        · refine ⟨0, h, by simp, ?_, ?_⟩
          · exact (Prod.mk.injEq _ _ _ _ ▸ heq).1.symm ▸ by omega
          · exact ((Prod.mk.injEq _ _ _ _ ▸ heq).2).symm
        · exact ⟨j + 1, d, by simpa using hj, by omega, hs⟩
      · rintro ⟨j, d, hj, hi, hs⟩
        cases j with
        | zero =>
          left
          simp at hj
          subst hj
          simp [hi, hs.symm]
        | succ k =>
          right
          exact ⟨k, d, by simpa using hj, by omega, hs⟩

/-! ## Claim theorems -/

/-- C1, counterexample: with the registry already holding its full build-time
capacity of `NUM_DRIVERS` descriptors, `register_driver` does not fail with a
capacity error — it panics on the out-of-bounds array index (`none` in the
embedding), aborting the kernel instead of returning any error value. -/
theorem register_driver_full_panics :
    register_driver fullInner (sampleDescriptor "extra") = none := rfl

/-- C1, amended: a `register_driver` call when the registry is full panics on
the out-of-bounds index (aborting before anything is written, so no
descriptor is stored and `next_index` is never observed changed), rather than
returning a capacity error; a call within capacity stores the descriptor at
`next_index` and increments `next_index` by one. -/
theorem register_driver_capacity (inner : DriverManagerInner)
    (d : DeviceDriverDescriptor) (hlen : inner.descriptors.length = NUM_DRIVERS) :
    (NUM_DRIVERS ≤ inner.next_index → register_driver inner d = none) ∧
    (inner.next_index < NUM_DRIVERS →
      register_driver inner d
        = some { next_index := inner.next_index + 1,
                 descriptors := inner.descriptors.set inner.next_index (some d) }) := by
  constructor
  · intro h
    have : ¬ inner.next_index < inner.descriptors.length := by omega
    simp [register_driver, this]
  · intro h
    have : inner.next_index < inner.descriptors.length := by omega
    simp [register_driver, this]

/-- C1 witness: registering into the fresh (empty) manager stores the
descriptor at index 0 and moves `next_index` to 1. -/
theorem register_driver_capacity_witness :
    register_driver DriverManagerInner.new (sampleDescriptor "a")
      = some { next_index := 1,
               descriptors :=
                 (List.replicate NUM_DRIVERS none).set 0 (some (sampleDescriptor "a")) } :=
  (register_driver_capacity DriverManagerInner.new (sampleDescriptor "a")
      (by decide)).2 (by decide)

/-- C6: `init_drivers` walks the registered descriptors in registration
order, and for each one runs `init` and then its post-init callback (when
present) before touching the next descriptor — on all-success inputs the
trace is exactly the per-descriptor `init`/post-init pairs concatenated in
order, with no panic. When a descriptor's `init` fails, the trace stops at
that `init` call and the boot aborts with a diagnostic naming the driver's
compatible string and the error; when its post-init callback fails, the trace
stops at that callback and the boot aborts with the analogous diagnostic; in
both cases no step of any later descriptor (nor any further step of the
failing one) is processed. -/
theorem init_drivers_order_and_fatal (ds : List DeviceDriverDescriptor) :
    ((∀ d ∈ ds, descriptorOk d = true) →
       init_drivers_from ds = (ds.flatMap okTrace, none)) ∧
    (∀ pre d rest x, ds = pre ++ d :: rest →
       (∀ p ∈ pre, descriptorOk p = true) →
       d.device_driver.initResult = Except.error x →
       init_drivers_from ds
         = (pre.flatMap okTrace ++ [DriverEvent.initCall d.device_driver.compatible],
            some (initErrorMsg d.device_driver.compatible x))) ∧
    (∀ pre d rest x, ds = pre ++ d :: rest →
       (∀ p ∈ pre, descriptorOk p = true) →
       d.device_driver.initResult = Except.ok () →
       d.post_init_callback = some (Except.error x) →
       init_drivers_from ds
         = (pre.flatMap okTrace
              ++ [DriverEvent.initCall d.device_driver.compatible,
                  DriverEvent.postInitCall d.device_driver.compatible],
            some (postInitErrorMsg d.device_driver.compatible x))) := by
  refine ⟨?_, ?_, ?_⟩
  · intro h
    have := init_drivers_from_append_ok ds [] h
    simpa [init_drivers_from] using this
  · intro pre d rest x hds hpre hinit
    subst hds
    rw [init_drivers_from_append_ok pre (d :: rest) hpre]
    simp [init_drivers_from, hinit]
  · intro pre d rest x hds hpre hinit hcb
    subst hds
    rw [init_drivers_from_append_ok pre (d :: rest) hpre]
    simp [init_drivers_from, hinit, hcb]

/-- C6 witness: over `[descA, descB]` (A fully succeeds, B's `init` fails
with "uart timeout") the trace is A's init, A's post-init, B's init, and the
boot aborts naming `PL011` and the error; nothing further runs. -/
theorem init_drivers_order_and_fatal_witness :
    init_drivers_from [descA, descB]
      = ([DriverEvent.initCall "GPIO", DriverEvent.postInitCall "GPIO",
          DriverEvent.initCall "PL011"],
         some (initErrorMsg "PL011" "uart timeout")) :=
  (init_drivers_order_and_fatal [descA, descB]).2.1 [descA] descB [] "uart timeout"
    rfl (by decide) rfl

/-- C9: `NullLock.lock f` applies the closure `f` to the wrapped data exactly
once — the result returned is exactly `f`'s result and the stored value is
exactly the value `f` left behind — and hence a value `v` written during one
acquisition is exactly the value the next, non-overlapping acquisition
observes. -/
theorem nulllock_lock_applies_once (T R R2 : Type) (l : NullLock T)
    (f : T → T × R) (g : T → T × R2) (v : T) :
    (l.lock f).2 = (f l.data).2 ∧
    (l.lock f).1.data = (f l.data).1 ∧
    ((f l.data).1 = v → ((l.lock f).1.lock g).2 = (g v).2) := by
  refine ⟨rfl, rfl, ?_⟩
  intro h
  simp [NullLock.lock, h]

/-- C9 witness: writing 7 through the lock and reading in the next
acquisition yields 7. -/
theorem nulllock_lock_applies_once_witness :
    (((NullLock.mk (0 : Nat)).lock fun _ => (7, Unit.unit)).1.lock fun d => (d, d)).2 = 7 :=
  (nulllock_lock_applies_once Nat Unit Nat (NullLock.mk 0)
      (fun _ => (7, Unit.unit)) (fun d => (d, d)) 7).2.2 rfl

/-- C2: for an IRQ number whose handler-table slot is free, `register_handler`
succeeds and stores the descriptor there; and whenever a slot already holds a
descriptor, any later `register_handler` call for the same number fails with
"IRQ handler already registered" and returns the table completely unchanged
(the original descriptor and every other slot exactly as before the failed
attempt). -/
theorem register_handler_exactly_once (t : HandlerTable) (d : IRQHandlerDescriptor)
    (hfree : HandlerTable.slot t d.number.get = none) :
    register_handler t d = (List.set t d.number.get (some d), Except.ok ()) ∧
    (∀ (t2 : HandlerTable) (d2 d0 : IRQHandlerDescriptor), d2.number = d.number →
       HandlerTable.slot t2 d.number.get = some d0 →
       register_handler t2 d2 = (t2, Except.error "IRQ handler already registered")) := by
  constructor
  · simp [register_handler, hfree]
  · intro t2 d2 d0 hnum hocc
    have hget : d2.number.get = d.number.get := by rw [hnum]
    simp [register_handler, hget, hocc]

/-- C2 witness: on the fresh 301-slot table, registering the uart descriptor
at IRQ 153 succeeds, and registering it again fails with "IRQ handler already
registered" leaving the table as after the first call. -/
theorem register_handler_exactly_once_witness :
    register_handler HandlerTable.new uartDescriptor
      = (List.set HandlerTable.new 153 (some uartDescriptor), Except.ok ()) ∧
    register_handler (List.set HandlerTable.new 153 (some uartDescriptor)) uartDescriptor
      = (List.set HandlerTable.new 153 (some uartDescriptor),
         Except.error "IRQ handler already registered") := by
  have h := register_handler_exactly_once HandlerTable.new uartDescriptor rfl
  exact ⟨h.1, h.2 (List.set HandlerTable.new 153 (some uartDescriptor))
    uartDescriptor uartDescriptor rfl rfl⟩

/-- C3: when the acknowledge register reports a pending IRQ number above
`MAX_IRQ_NUMBER`, `handle_pending_irqs` returns immediately with no side
effects: no handler is invoked, no completion is signaled, there is no panic
and the handler table is exactly as before. -/
theorem handle_pending_spurious (t : HandlerTable) (pending : Nat)
    (h : MAX_IRQ_NUMBER < pending) :
    handle_pending_irqs pending t
      = { invoked := [], completed := [], panicMsg := none, tableAfter := t } := by
  simp [handle_pending_irqs, h]

/-- C3 witness: pending number 301 (one above the maximum) on the fresh table
is absorbed with no effects. -/
theorem handle_pending_spurious_witness :
    handle_pending_irqs 301 HandlerTable.new
      = { invoked := [], completed := [], panicMsg := none,
          tableAfter := HandlerTable.new } :=
  handle_pending_spurious HandlerTable.new 301 (by decide)

/-- C4: for an in-range pending IRQ number, `handle_pending_irqs` panics in
exactly two situations — the slot is empty, or the registered handler's
`handle()` returns an error — and in the empty-slot case the diagnostic names
the IRQ number. -/
theorem handle_pending_fatal_cases (t : HandlerTable) (pending : Nat)
    (h : pending ≤ MAX_IRQ_NUMBER) :
    ((handle_pending_irqs pending t).panicMsg.isSome = true ↔
       HandlerTable.slot t pending = none ∨
         ∃ d x, HandlerTable.slot t pending = some d ∧
           d.handler.handleResult = Except.error x) ∧
    (HandlerTable.slot t pending = none →
       (handle_pending_irqs pending t).panicMsg
         = some ("No handler registered for IRQ " ++ toString pending)) := by
  have hnot : ¬ MAX_IRQ_NUMBER < pending := by omega
  cases hslot : HandlerTable.slot t pending with
  | none => simp [handle_pending_irqs, hnot, hslot]
  | some d =>
    cases hres : d.handler.handleResult with
    | error x => simp [handle_pending_irqs, hnot, hslot, hres]
    | ok u => simp [handle_pending_irqs, hnot, hslot, hres]

/-- C4 witness: dispatching pending IRQ 0 against the fresh (empty) table
aborts with the diagnostic naming IRQ 0. -/
theorem handle_pending_fatal_cases_witness :
    (handle_pending_irqs 0 HandlerTable.new).panicMsg
      = some ("No handler registered for IRQ " ++ toString (0 : Nat)) :=
  (handle_pending_fatal_cases HandlerTable.new 0 (by decide)).2 rfl

/-- C5: for an in-range pending IRQ number whose slot holds a descriptor
whose `handle()` succeeds, `handle_pending_irqs` invokes exactly that
descriptor's handler (and no other), then signals completion for exactly that
IRQ number, with no panic and the handler table exactly as before. -/
theorem handle_pending_success (t : HandlerTable) (pending : Nat)
    (d : IRQHandlerDescriptor) (h : pending ≤ MAX_IRQ_NUMBER)
    (hslot : HandlerTable.slot t pending = some d)
    (hok : d.handler.handleResult = Except.ok ()) :
    handle_pending_irqs pending t
      = { invoked := [d], completed := [pending], panicMsg := none,
          tableAfter := t } := by
  have hnot : ¬ MAX_IRQ_NUMBER < pending := by omega
  simp [handle_pending_irqs, hnot, hslot, hok]

/-- C5 witness: the spec scenario — timer registered at 33, uart at 153,
hardware reports pending IRQ 153 — invokes the uart handler only, completes
153, and leaves the table (slot 33 included) untouched. -/
theorem handle_pending_success_witness :
    handle_pending_irqs 153 scenarioTable
      = { invoked := [uartDescriptor], completed := [153], panicMsg := none,
          tableAfter := scenarioTable } ∧
    HandlerTable.slot scenarioTable 33 = some timerDescriptor :=
  ⟨handle_pending_success scenarioTable 153 uartDescriptor (by decide) rfl rfl, rfl⟩

/-- C7: `gicv2_init` performs the Distributor bring-up exactly when the
executing core is the designated boot core, and on every core performs the
CPU-Interface bring-up as its final two actions, accept-all-priorities then
enable, returning `Ok(())`. -/
theorem gicv2_init_boot_core_split (bootCoreId coreId : Nat) :
    ((GicAction.gicdBootCoreInit ∈ (gicv2_init bootCoreId coreId).1) ↔
       coreId = bootCoreId) ∧
    (∃ l, (gicv2_init bootCoreId coreId).1
        = l ++ [GicAction.giccPriorityAcceptAll, GicAction.giccEnable]) ∧
    (gicv2_init bootCoreId coreId).2 = Except.ok () := by
  by_cases h : bootCoreId = coreId
  · subst h
    exact ⟨by simp [gicv2_init], ⟨[GicAction.gicdBootCoreInit], by simp [gicv2_init]⟩, rfl⟩
  · refine ⟨?_, ⟨[], by simp [gicv2_init, h]⟩, rfl⟩
    simp [gicv2_init, h]
    exact fun hc => h hc.symm

/-- C8: the privilege-descent preparation stages the exception return as
specified — the synthetic saved-program-status value has the D, A, I and F
mask bits (9, 8, 7, 6) set and its mode field (bits 3:0) selects EL1h, the
exception-return address is the kernel's initialization entry point, SP_EL1
is the caller-supplied stack top, the virtual counter offset is zero, and
HCR_EL2.RW (bit 31) forces EL1 to AArch64. -/
theorem prepare_el2_to_el1_stages (r : AArch64Regs) (kernel_init_addr stack_addr : Nat) :
    (prepare_el2_to_el1_transition kernel_init_addr stack_addr r).spsr_el2.testBit 9 = true ∧
    (prepare_el2_to_el1_transition kernel_init_addr stack_addr r).spsr_el2.testBit 8 = true ∧
    (prepare_el2_to_el1_transition kernel_init_addr stack_addr r).spsr_el2.testBit 7 = true ∧
    (prepare_el2_to_el1_transition kernel_init_addr stack_addr r).spsr_el2.testBit 6 = true ∧
    (prepare_el2_to_el1_transition kernel_init_addr stack_addr r).spsr_el2 % 2 ^ 4
        = SPSR_EL2_M_EL1h ∧
    (prepare_el2_to_el1_transition kernel_init_addr stack_addr r).elr_el2
        = kernel_init_addr ∧
    (prepare_el2_to_el1_transition kernel_init_addr stack_addr r).sp_el1 = stack_addr ∧
    (prepare_el2_to_el1_transition kernel_init_addr stack_addr r).cntvoff_el2 = 0 ∧
    (prepare_el2_to_el1_transition kernel_init_addr stack_addr r).hcr_el2.testBit 31
        = true := by
  have hs : (prepare_el2_to_el1_transition kernel_init_addr stack_addr r).spsr_el2
      = 965 := rfl
  have hh : (prepare_el2_to_el1_transition kernel_init_addr stack_addr r).hcr_el2
      = 2 ^ 31 := rfl
  refine ⟨?_, ?_, ?_, ?_, ?_, rfl, rfl, rfl, ?_⟩
  · rw [hs]; decide
  · rw [hs]; decide
  · rw [hs]; decide
  · rw [hs]; decide
  · rw [hs]; decide
  · rw [hh]; decide

/-- C10, counterexample: a table whose only occupied slot is 0 — a valid
registration target — produces no diagnostic line at all, so `print_handler`
does not list every occupied slot. -/
theorem print_handler_misses_low_slots :
    HandlerTable.slot lowSlotTable 0 = some sgiDescriptor ∧
    print_handler lowSlotTable = [] := ⟨rfl, rfl⟩

/-- C10, amended: `print_handler` is a read-only enumeration of the occupied
slots with index at least 32 (the peripheral-IRQ range): a line `(i, s)` is
produced exactly when `32 ≤ i` and slot `i` holds a descriptor named `s`;
occupied slots below 32 are skipped, no empty slot is listed, and nothing is
modified. -/
theorem print_handler_peripheral_slots (t : HandlerTable) (i : Nat) (s : String) :
    (i, s) ∈ print_handler t ↔
      32 ≤ i ∧ ∃ d, HandlerTable.slot t i = some d ∧ d.name = s := by
  unfold print_handler
  rw [mem_printFrom]
  constructor
  · rintro ⟨j, d, hj, hi, hs⟩
    rw [List.getElem?_drop] at hj
    refine ⟨by omega, d, ?_, hs⟩
    rw [slot_eq_some_iff]
    have : 32 + j = i := by omega
    rw [← this]
    exact hj
  · rintro ⟨h32, d, hd, hs⟩
    rw [slot_eq_some_iff] at hd
    refine ⟨i - 32, d, ?_, by omega, hs⟩
    rw [List.getElem?_drop]
    have : 32 + (i - 32) = i := by omega
    rw [this]
    exact hd

end KernelCore
